import Mathlib

set_option maxRecDepth 40000

/-!
Verification of the TSPL2 command-encoding library (`src/lib.rs`).

The Rust source converts physical lengths to printer dots with `f32`
arithmetic and encodes validated commands as CRLF-terminated ASCII lines
written to a device sink.  This file embeds that code shallowly:

* `f32` values are represented by the exact rational they denote; every
  Rust `f32` operation is modelled by exact rational arithmetic followed
  by `roundF32`, IEEE-754 binary32 round-to-nearest-ties-to-even
  (with subnormals, and overflow mapped to the sentinel `2^128` standing
  for infinity).  The rational arithmetic underlying the model is phrased
  with `Rat.divInt` and `num`/`den` projections so that the kernel can
  evaluate it (`Rat.mul`, `Rat.inv`, ... are irreducible); bridge lemmas
  identify these operations with the ordinary field operations of `ℚ`.
* Rust's saturating float-to-integer cast `as u32` is `truncSatU32`:
  truncation toward zero clamped to `[0, 2^32 - 1]`.
* The device sink is the `out` string of the `Printer` state; device
  writes are assumed to succeed (the claims under verification assume
  this), and a `write_all` of a fully formatted command appends it to
  `out`.
-/

namespace Tspl2

/-- The rational `n / d`, in kernel-computable form. -/
def qmk (n d : ℤ) : ℚ := Rat.divInt n d

/-- Exact product of two rationals, in kernel-computable form. -/
def qmul (a b : ℚ) : ℚ := Rat.divInt (a.num * b.num) ((a.den : ℤ) * (b.den : ℤ))

/-- Exact quotient of two rationals, in kernel-computable form. -/
def qdiv (a b : ℚ) : ℚ := Rat.divInt (a.num * (b.den : ℤ)) ((a.den : ℤ) * b.num)

/-- Exact difference of two rationals, in kernel-computable form. -/
def qsub (a b : ℚ) : ℚ :=
  Rat.divInt (a.num * (b.den : ℤ) - b.num * (a.den : ℤ)) ((a.den : ℤ) * (b.den : ℤ))

/-- Fuel-driven binary logarithm (`Nat.log2` is well-founded recursion,
which the kernel cannot evaluate; this structural version can be). -/
def log2fuel : ℕ → ℕ → ℕ
  | 0, _ => 0
  | f + 1, n => if 2 ≤ n then log2fuel f (n / 2) + 1 else 0

/-- `⌊log₂ n⌋` (and `0` for `n = 0`). -/
def nlog2 (n : ℕ) : ℕ := log2fuel n n

/-- `2 ^ e` in `ℚ` for an integer exponent `e`. -/
def pow2 (e : ℤ) : ℚ :=
  if 0 ≤ e then qmk ((2 ^ e.toNat : ℕ) : ℤ) 1 else qmk 1 ((2 ^ (-e).toNat : ℕ) : ℤ)

/-- Round a rational to an integer, to nearest, ties to even. -/
def rhe (x : ℚ) : ℤ :=
  let n := ⌊x⌋
  let f := qsub x (qmk n 1)
  if f < qmk 1 2 then n
  else if qmk 1 2 < f then n + 1
  else if n % 2 = 0 then n else n + 1

/-- The binade exponent of a positive rational `q`: the unique `e` with
`2 ^ e ≤ q < 2 ^ (e + 1)`. -/
def qexp (q : ℚ) : ℤ :=
  let a : ℤ := nlog2 q.num.toNat
  let b : ℤ := nlog2 q.den
  if pow2 (a - b) ≤ q then a - b else a - b - 1

/-- The exponent of the rounding grid for a nonnegative `f32` value:
`-149` in the subnormal range, otherwise 23 below the binade exponent. -/
def f32exp (a : ℚ) : ℤ := if a < pow2 (-126) then -149 else qexp a - 23

/-- Round `a` to the nearest multiple of `2 ^ e`, ties to even. -/
def roundGrid (a : ℚ) (e : ℤ) : ℚ := qmul (qmk (rhe (qdiv a (pow2 e))) 1) (pow2 e)

/-- Overflow: results at or beyond `2 ^ 128` become the infinity
sentinel `2 ^ 128`. -/
def roundClamp (r : ℚ) : ℚ := if pow2 128 ≤ r then pow2 128 else r

/-- Round a nonnegative rational to the IEEE-754 binary32 value nearest
to it (ties to even): the rounding grid has spacing `2 ^ (e - 23)` for a
number in the binade of `2 ^ e`, and spacing `2 ^ (-149)` in the
subnormal range. -/
def roundF32Pos (a : ℚ) : ℚ := roundClamp (roundGrid a (f32exp a))

/-- IEEE-754 binary32 round-to-nearest-ties-to-even on exact rationals. -/
def roundF32 (q : ℚ) : ℚ :=
  if q < 0 then -roundF32Pos (qmk (-q.num) (q.den : ℤ)) else roundF32Pos q

/-- `f32` multiplication: exact product, then binary32 rounding. -/
def fmul (a b : ℚ) : ℚ := roundF32 (qmul a b)

/-- `f32` division: exact quotient, then binary32 rounding. -/
def fdiv (a b : ℚ) : ℚ := roundF32 (qdiv a b)

/-- Rust's `u32 as f32` conversion (round to nearest, ties to even). -/
def ofNat32 (n : ℕ) : ℚ := roundF32 (qmk (n : ℤ) 1)

/-- Rust's saturating cast `f32 as u32`: truncate toward zero, clamp to
`[0, u32::MAX]` (negative values go to `0`). -/
def truncSatU32 (q : ℚ) : ℕ := min (2 ^ 32 - 1) (Int.toNat ⌊q⌋)

/-- The `f32` value of the Rust literal `25.4`. -/
def c254 : ℚ := roundF32 (qmk 254 10)

/-- The `f32` value of the Rust literal `0.1`. -/
def c01 : ℚ := roundF32 (qmk 1 10)

/-- `Size` from `src/lib.rs`: a length in inches, millimeters, or raw
printer dots.  The `f32` payloads are represented by exact rationals. -/
inductive SizeQ where
  | Imperial (x : ℚ)
  | Metric (x : ℚ)
  | Dots (x : ℕ)
deriving DecidableEq, Repr

/-- `Size::to_dots_raw` from `src/lib.rs`:
`Imperial(x) => (x * resolution as f32) as u32`,
`Metric(x) => (x / 25.4 * resolution as f32) as u32`,
`Dots(x) => x`. -/
def SizeQ.to_dots_raw (s : SizeQ) (resolution : ℕ) : ℕ :=
  match s with
  | .Imperial x => truncSatU32 (fmul x (ofNat32 resolution))
  | .Metric x => truncSatU32 (fmul (fdiv x c254) (ofNat32 resolution))
  | .Dots x => x

/-! Bridge lemmas: the kernel-computable rational operations agree with
the field operations of `ℚ`. -/

theorem qmk_int (n : ℤ) : qmk n 1 = (n : ℚ) := by
  rw [qmk, Rat.divInt_eq_div]
  norm_num

theorem qmul_eq (a b : ℚ) : qmul a b = a * b := by
  conv_rhs => rw [← Rat.num_div_den a, ← Rat.num_div_den b]
  rw [qmul, Rat.divInt_eq_div, div_mul_div_comm]
  push_cast
  ring

theorem qdiv_eq (a b : ℚ) : qdiv a b = a / b := by
  rcases eq_or_ne b 0 with hb | hb
  · subst hb
    rw [qdiv, Rat.zero_num, Int.mul_zero, Rat.divInt_zero, div_zero]
  · have hbn : (b.num : ℚ) ≠ 0 := by
      exact_mod_cast Rat.num_ne_zero.mpr hb
    have had : ((a.den : ℚ)) ≠ 0 := by
      exact_mod_cast a.den_nz
    have hbd : ((b.den : ℚ)) ≠ 0 := by
      exact_mod_cast b.den_nz
    have ha2 : a * (a.den : ℚ) = (a.num : ℚ) := (eq_div_iff had).mp (Rat.num_div_den a).symm
    have hb2 : b * (b.den : ℚ) = (b.num : ℚ) := (eq_div_iff hbd).mp (Rat.num_div_den b).symm
    rw [qdiv, Rat.divInt_eq_div]
    push_cast
    rw [div_eq_div_iff (mul_ne_zero had hbn) hb, ← ha2, ← hb2]
    ring

theorem qsub_eq (a b : ℚ) : qsub a b = a - b := by
  have had : ((a.den : ℚ)) ≠ 0 := by
    exact_mod_cast a.den_nz
  have hbd : ((b.den : ℚ)) ≠ 0 := by
    exact_mod_cast b.den_nz
  conv_rhs => rw [← Rat.num_div_den a, ← Rat.num_div_den b]
  rw [qsub, Rat.divInt_eq_div, div_sub_div _ _ had hbd]
  push_cast
  ring

theorem qmk_neg (q : ℚ) : qmk (-q.num) (q.den : ℤ) = -q := by
  rw [qmk, Rat.divInt_eq_div]
  push_cast
  rw [neg_div, Rat.num_div_den]

theorem pow2_pos (e : ℤ) : 0 < pow2 e := by
  rw [pow2]
  split
  · rw [qmk_int]
    positivity
  · rw [qmk, Rat.divInt_eq_div]
    positivity

/-- `rhe` returns the floor or the floor plus one. -/
theorem rhe_cases (x : ℚ) : rhe x = ⌊x⌋ ∨ rhe x = ⌊x⌋ + 1 := by
  rw [rhe]
  split
  · exact Or.inl rfl
  · split
    · exact Or.inr rfl
    · split
      · exact Or.inl rfl
      · exact Or.inr rfl

theorem rhe_nonneg {x : ℚ} (hx : 0 ≤ x) : 0 ≤ rhe x := by
  have hf : (0 : ℤ) ≤ ⌊x⌋ := Int.floor_nonneg.mpr hx
  rcases rhe_cases x with h | h <;> omega

theorem roundGrid_nonneg {a : ℚ} (e : ℤ) (ha : 0 ≤ a) : 0 ≤ roundGrid a e := by
  rw [roundGrid, qmul_eq, qmk_int]
  have harg : (0 : ℚ) ≤ qdiv a (pow2 e) := by
    rw [qdiv_eq]
    exact div_nonneg ha (pow2_pos _).le
  have := rhe_nonneg harg
  exact mul_nonneg (by exact_mod_cast this) (pow2_pos _).le

theorem roundClamp_nonneg {r : ℚ} (hr : 0 ≤ r) : 0 ≤ roundClamp r := by
  rw [roundClamp]
  split
  · exact (pow2_pos 128).le
  · exact hr

theorem roundF32Pos_nonneg {a : ℚ} (ha : 0 ≤ a) : 0 ≤ roundF32Pos a := by
  rw [roundF32Pos]
  exact roundClamp_nonneg (roundGrid_nonneg _ ha)

theorem roundF32Pos_zero : roundF32Pos 0 = 0 := by decide

theorem roundF32_nonneg {q : ℚ} (hq : 0 ≤ q) : 0 ≤ roundF32 q := by
  rw [roundF32, if_neg (not_lt.mpr hq)]
  exact roundF32Pos_nonneg hq

theorem roundF32_nonpos {q : ℚ} (hq : q ≤ 0) : roundF32 q ≤ 0 := by
  rw [roundF32]
  split
  · rw [qmk_neg]
    have : (0 : ℚ) ≤ -q := by linarith
    have := roundF32Pos_nonneg this
    linarith
  · have hq0 : q = 0 := le_antisymm hq (not_lt.mp (by assumption))
    subst hq0
    rw [roundF32Pos_zero]

theorem truncSatU32_nonpos {q : ℚ} (hq : q ≤ 0) : truncSatU32 q = 0 := by
  rw [truncSatU32]
  have h1 : ⌊q⌋ ≤ 0 := by
    calc ⌊q⌋ ≤ ⌊(0 : ℚ)⌋ := Int.floor_le_floor hq
    _ = 0 := by norm_num
  have h2 : Int.toNat ⌊q⌋ = 0 := Int.toNat_of_nonpos h1
  rw [h2]
  omega

theorem truncSatU32_big {q : ℚ} (hq : ((2 ^ 32 - 1 : ℕ) : ℚ) < q) :
    truncSatU32 q = 2 ^ 32 - 1 := by
  rw [truncSatU32]
  have h1 : ((2 ^ 32 - 1 : ℕ) : ℤ) ≤ ⌊q⌋ := by
    rw [Int.le_floor]
    push_cast at hq ⊢
    exact hq.le
  have h2 : (2 ^ 32 - 1 : ℕ) ≤ Int.toNat ⌊q⌋ := by
    omega
  omega

theorem truncSatU32_natCast {n : ℕ} (hn : n < 2 ^ 32) : truncSatU32 (n : ℚ) = n := by
  rw [truncSatU32, Int.floor_natCast]
  rw [Int.toNat_natCast]
  omega

/-! The protocol vocabulary of `src/lib.rs`: closed enumerations, each
variant mapping to the wire token given by its `strum(serialize = ...)`
attribute (for `Country`, the numeric discriminant). -/

/-- `Country` from `src/lib.rs` (used by the `COUNTRY` command). -/
inductive Country where
  | Usa | CanadianFrench | SpanishLatinAmerica | Dutch | Belgian | French
  | Spanish | Hungarian | Yugoslavian | Italian | Switzerland | Slovak
  | UnitedKingdom | Danish | Swedish | Norwegian | Polish | German
  | Brazil | English | Portuguese | Finnish
deriving DecidableEq, Repr

/-- The numeric discriminant of a `Country` variant (`country as u16`). -/
def Country.code : Country → ℕ
  | .Usa => 1
  | .CanadianFrench => 2
  | .SpanishLatinAmerica => 3
  | .Dutch => 31
  | .Belgian => 32
  | .French => 33
  | .Spanish => 34
  | .Hungarian => 36
  | .Yugoslavian => 38
  | .Italian => 39
  | .Switzerland => 41
  | .Slovak => 42
  | .UnitedKingdom => 44
  | .Danish => 45
  | .Swedish => 46
  | .Norwegian => 47
  | .Polish => 48
  | .German => 49
  | .Brazil => 55
  | .English => 61
  | .Portuguese => 351
  | .Finnish => 358

/-- `Font` from `src/lib.rs`. -/
inductive Font where
  | FontMonotye | Font8x12 | Font12x20 | Font16x24 | Font24x32 | Font32x48
  | Font14x19 | Font21x27 | Font14x25 | FontRoman
  | FontEpl1 | FontEpl2 | FontEpl3 | FontEpl4 | FontEpl5
  | FontZplA | FontZplB | FontZplD | FontZplE8 | FontZplF | FontZplG
  | FontZplH8 | FontZplGs
deriving DecidableEq, Repr

/-- The wire token of a `Font` variant. -/
def Font.token : Font → String
  | .FontMonotye => "0"
  | .Font8x12 => "1"
  | .Font12x20 => "2"
  | .Font16x24 => "3"
  | .Font24x32 => "4"
  | .Font32x48 => "5"
  | .Font14x19 => "6"
  | .Font21x27 => "7"
  | .Font14x25 => "8"
  | .FontRoman => "ROMAN.TTF"
  | .FontEpl1 => "1.EFT"
  | .FontEpl2 => "2.EFT"
  | .FontEpl3 => "3.RFT"
  | .FontEpl4 => "4.EFT"
  | .FontEpl5 => "5.EFT"
  | .FontZplA => "A.FNT"
  | .FontZplB => "B.FNT"
  | .FontZplD => "D.FNT"
  | .FontZplE8 => "E8.FNT"
  | .FontZplF => "F.FNT"
  | .FontZplG => "G.FNT"
  | .FontZplH8 => "H8.FNT"
  | .FontZplGs => "GS.FNT"

/-- `Rotation` from `src/lib.rs` (clockwise rotation). -/
inductive Rotation where
  | NoRotation | Rotation90 | Rotation180 | Rotation270
deriving DecidableEq, Repr

/-- The wire token of a `Rotation` variant. -/
def Rotation.token : Rotation → String
  | .NoRotation => "0"
  | .Rotation90 => "90"
  | .Rotation180 => "180"
  | .Rotation270 => "270"

/-- `Alignment` from `src/lib.rs`. -/
inductive Alignment where
  | Default | Left | Center | Right
deriving DecidableEq, Repr

/-- The wire token of an `Alignment` variant. -/
def Alignment.token : Alignment → String
  | .Default => "0"
  | .Left => "1"
  | .Center => "2"
  | .Right => "3"

/-- `QrCodeJustification` from `src/lib.rs`. -/
inductive QrCodeJustification where
  | UpperLeft | UpperCenter | UpperRight | CenterLeft | Center | CenterRight
  | BottomLeft | BottomCenter | BottomRight
deriving DecidableEq, Repr

/-- The wire token of a `QrCodeJustification` variant. -/
def QrCodeJustification.token : QrCodeJustification → String
  | .UpperLeft => "J1"
  | .UpperCenter => "J2"
  | .UpperRight => "J3"
  | .CenterLeft => "J4"
  | .Center => "J5"
  | .CenterRight => "J6"
  | .BottomLeft => "J7"
  | .BottomCenter => "J8"
  | .BottomRight => "J9"

/-- `RssType` from `src/lib.rs`. -/
inductive RssType where
  | Rss14 | Rss14T | Rss14S | Rss14So | RssLim | RssExp
  | UpcA | UpcE | Ean13 | Ean8 | Ucc128Cca | Ucc128Ccc
deriving DecidableEq, Repr

/-- The wire token of an `RssType` variant. -/
def RssType.token : RssType → String
  | .Rss14 => "RSS14"
  | .Rss14T => "RSS14T"
  | .Rss14S => "RSS14S"
  | .Rss14So => "RSS14SO"
  | .RssLim => "RSSLIM"
  | .RssExp => "RSSEXP"
  | .UpcA => "UPCA"
  | .UpcE => "UPCE"
  | .Ean13 => "EAN13"
  | .Ean8 => "EAN8"
  | .Ucc128Cca => "UCC128CCA"
  | .Ucc128Ccc => "UCC128CCC"

/-- `Tape` from `src/lib.rs`. -/
structure Tape where
  width : SizeQ
  height : Option SizeQ
  gap : SizeQ
  gap_offset : Option SizeQ
deriving DecidableEq, Repr

/-- Zero-pad a decimal rendering to width 3, Rust's `{:03}` for an
unsigned integer. -/
def pad3 (n : ℕ) : String :=
  let s := toString n
  if s.length < 3 then String.mk (List.replicate (3 - s.length) '0') ++ s else s

/-- Rust's `b as u8` for a `bool`, rendered in decimal. -/
def boolU8 (b : Bool) : String := if b then "1" else "0"

/-- Does the character list start with `pre`? -/
def listStarts : List Char → List Char → Bool
  | [], _ => true
  | _ :: _, [] => false
  | a :: as, b :: bs => a == b && listStarts as bs

/-- Does `sub` occur contiguously anywhere in the list? -/
def listHas (sub : List Char) : List Char → Bool
  | [] => listStarts sub []
  | l@(_ :: t) => listStarts sub l || listHas sub t

/-- The `Display` rendering of a `Size` for commands that take physical
units directly (`SIZE`, `GAP`, ...): Rust renders the `f32` payload with
`std`'s shortest-roundtrip float formatting, which is external to this
repository; it is abstracted as the function argument `fmt`. `Dots`
payloads are rendered exactly (`"<x> dot"`). -/
def SizeQ.display (fmt : ℚ → String) : SizeQ → String
  | .Imperial x => fmt x
  | .Metric x => fmt x ++ " mm"
  | .Dots x => toString x ++ " dot"

/-- The result of one `Printer` method call: `Ok(&mut self)`, a returned
`anyhow` error, or a panic (`unimplemented!()`). -/
inductive CallOutcome where
  | ok
  | err (msg : String)
  | panicked (msg : String)
deriving DecidableEq, Repr

/-- `true` exactly on the `Result::Err` outcome (not on a panic). -/
def CallOutcome.isErrReturn : CallOutcome → Bool
  | .err _ => true
  | _ => false

/-- `Printer` from `src/lib.rs`: the session owns the device sink (its
received bytes are `out`) and a fixed resolution in dots per inch. -/
structure Printer where
  resolution : ℕ
  out : String
deriving DecidableEq, Repr

/-- A successful `write_all`: the command bytes reach the sink. -/
def Printer.write (p : Printer) (cmd : String) : Printer :=
  { p with out := p.out ++ cmd }

/-- Rust's `?` on a chained call: on `Ok` continue with the borrowed
printer, otherwise stop; the printer state (device sink) persists. -/
def andThen (r : Printer × CallOutcome) (f : Printer → Printer × CallOutcome) :
    Printer × CallOutcome :=
  match r with
  | (p, .ok) => f p
  | (p, e) => (p, e)

/-- `Printer::size` (private helper used at construction). -/
def Printer.size (fmt : ℚ → String) (p : Printer) (width : SizeQ) (height : Option SizeQ) :
    Printer × CallOutcome :=
  match height with
  | some h =>
      (p.write ("SIZE " ++ width.display fmt ++ "," ++ h.display fmt ++ "\r\n"), .ok)
  | none => (p.write ("SIZE " ++ width.display fmt ++ "\r\n"), .ok)

/-- `Printer::gap` (private helper used at construction). -/
def Printer.gap (fmt : ℚ → String) (p : Printer) (gap : SizeQ) (gap_offset : Option SizeQ) :
    Printer × CallOutcome :=
  match gap_offset with
  | some off =>
      (p.write ("GAP " ++ gap.display fmt ++ "," ++ off.display fmt ++ "\r\n"), .ok)
  | none => (p.write ("GAP " ++ gap.display fmt ++ "\r\n"), .ok)

/-- `Printer::cls`. -/
def Printer.cls (p : Printer) : Printer × CallOutcome :=
  (p.write "CLS\r\n", .ok)

/-- `Printer::cut`. -/
def Printer.cut (p : Printer) : Printer × CallOutcome :=
  (p.write "CUT\r\n", .ok)

/-- `Printer::density`. -/
def Printer.density (p : Printer) (density : ℕ) : Printer × CallOutcome :=
  if 1 ≤ density ∧ density ≤ 15 then
    (p.write ("DENSITY " ++ toString density ++ "\r\n"), .ok)
  else (p, .err "Density should be in range 0..15")

/-- `Printer::print`. -/
def Printer.print (p : Printer) (sets : ℕ) (copies : Option ℕ) : Printer × CallOutcome :=
  if 1 ≤ sets ∧ sets ≤ 999999999 then
    match copies with
    | some c =>
        if 1 ≤ c ∧ c ≤ 999999999 then
          (p.write ("PRINT " ++ toString sets ++ "," ++ toString c ++ "\r\n"), .ok)
        else (p, .err ("Copies qty must be in range 1..999999999, got " ++ toString c))
    | none => (p.write ("PRINT " ++ toString sets ++ "\r\n"), .ok)
  else (p, .err ("Sets qty must be in range 1..999999999, got " ++ toString sets))

/-- `Printer::sound`. -/
def Printer.sound (p : Printer) (level : ℕ) (interval : ℕ) : Printer × CallOutcome :=
  if level ≤ 9 ∧ 1 ≤ interval ∧ interval ≤ 4095 then
    (p.write ("SOUND " ++ toString level ++ "," ++ toString interval ++ "\r\n"), .ok)
  else (p, .err "wrong sound parameters")

/-- `Printer::feed`. -/
def Printer.feed (p : Printer) (feed : SizeQ) : Printer × CallOutcome :=
  let feed_dot := feed.to_dots_raw p.resolution
  if feed_dot ≤ 9999 then
    (p.write ("FEED " ++ toString feed_dot ++ "\r\n"), .ok)
  else (p, .err ("feed length must be in range 0..9999 in dots, got " ++ toString feed_dot))

/-- `Printer::backup`. -/
def Printer.backup (p : Printer) (feed : SizeQ) : Printer × CallOutcome :=
  let feed_dot := feed.to_dots_raw p.resolution
  if feed_dot ≤ 9999 then
    (p.write ("BACKUP " ++ toString feed_dot ++ "\r\n"), .ok)
  else (p, .err ("backup length must be in range 0..9999, got " ++ toString feed_dot))

/-- `Printer::backfeed`. -/
def Printer.backfeed (p : Printer) (feed : SizeQ) : Printer × CallOutcome :=
  let feed_dot := feed.to_dots_raw p.resolution
  if feed_dot ≤ 9999 then
    (p.write ("BACKFEED " ++ toString feed_dot ++ "\r\n"), .ok)
  else (p, .err ("backfeed length must be in range 0..9999, got " ++ toString feed_dot))

/-- `Printer::country` (`format!("COUNTRY {:03}\r\n", country as u16)`). -/
def Printer.country (p : Printer) (c : Country) : Printer × CallOutcome :=
  (p.write ("COUNTRY " ++ pad3 c.code ++ "\r\n"), .ok)

/-- `Printer::display`: `unimplemented!()` — a panic, not an `Err`. -/
def Printer.display (p : Printer) : Printer × CallOutcome :=
  (p, .panicked "not implemented")

/-- `Printer::menu`: `unimplemented!()` — a panic, not an `Err`. -/
def Printer.menu (p : Printer) : Printer × CallOutcome :=
  (p, .panicked "not implemented")

/-- `Printer::text`. -/
def Printer.text (p : Printer) (x y : SizeQ) (font : Font) (rotate : Rotation)
    (multiply_x multiply_y : ℕ) (alignment : Option Alignment) (content : String) :
    Printer × CallOutcome :=
  if ¬(1 ≤ multiply_x ∧ multiply_x ≤ 10) ∨ ¬(1 ≤ multiply_y ∧ multiply_y ≤ 10) then
    (p, .err "Wrong multiplication. Should be in range 1-10")
  else
    match alignment with
    | some a =>
        (p.write ("TEXT " ++ toString (x.to_dots_raw p.resolution) ++ ","
          ++ toString (y.to_dots_raw p.resolution) ++ ",\"" ++ font.token ++ "\","
          ++ rotate.token ++ "," ++ toString multiply_x ++ "," ++ toString multiply_y
          ++ "," ++ a.token ++ ", \"" ++ content ++ "\"\r\n"), .ok)
    | none =>
        (p.write ("TEXT " ++ toString (x.to_dots_raw p.resolution) ++ ","
          ++ toString (y.to_dots_raw p.resolution) ++ ",\"" ++ font.token ++ "\","
          ++ rotate.token ++ "," ++ toString multiply_x ++ "," ++ toString multiply_y
          ++ ", \"" ++ content ++ "\"\r\n"), .ok)

/-- `Printer::block`: note the emitted opcode keyword is `TEXT`. -/
def Printer.block (p : Printer) (x y width height : SizeQ) (font : Font)
    (rotate : Rotation) (multiply_x multiply_y : ℕ) (space : Option SizeQ)
    (alignment : Option Alignment) (fit : Option Bool) (content : String) :
    Printer × CallOutcome :=
  if ¬(1 ≤ multiply_x ∧ multiply_x ≤ 10) ∨ ¬(1 ≤ multiply_y ∧ multiply_y ≤ 10) then
    (p, .err "Wrong multiplication. Should be in range 1-10")
  else if 4096 < content.utf8ByteSize then
    (p, .err "Overflow. Max content length 4096")
  else
    let base := "TEXT " ++ toString (x.to_dots_raw p.resolution) ++ ","
      ++ toString (y.to_dots_raw p.resolution) ++ ","
      ++ toString (width.to_dots_raw p.resolution) ++ ","
      ++ toString (height.to_dots_raw p.resolution) ++ ",\"" ++ font.token ++ "\","
      ++ rotate.token ++ "," ++ toString multiply_x ++ "," ++ toString multiply_y ++ ","
    let withSpace := match space with
      | some s => base ++ toString (s.to_dots_raw p.resolution) ++ ","
      | none => base
    let withAlign := match alignment with
      | some a => withSpace ++ a.token ++ ","
      | none => withSpace
    let withFit := match fit with
      | some f => withAlign ++ boolU8 f ++ ","
      | none => withAlign
    (p.write (withFit ++ "\"" ++ content ++ "\"\r\n"), .ok)

/-- The ECC-level mapping inside `Printer::qrcode`. -/
def qrEccGrade (ecc_level : ℕ) : Char :=
  match ecc_level with
  | 0 | 1 | 2 | 3 | 4 | 5 | 6 => 'L'
  | 7 | 8 | 9 | 10 | 11 | 12 | 13 | 14 => 'M'
  | 15 | 16 | 17 | 18 | 19 | 20 | 21 | 22 | 23 | 24 => 'Q'
  | _ => 'H'

/-- `Printer::qrcode`. -/
def Printer.qrcode (p : Printer) (x_upper_left y_upper_left : SizeQ) (ecc_level : ℕ)
    (cellwidth_dot : ℕ) (rotate : Rotation) (justification : Option QrCodeJustification)
    (content : String) : Printer × CallOutcome :=
  let ecc := qrEccGrade ecc_level
  if ¬(1 ≤ cellwidth_dot ∧ cellwidth_dot ≤ 10) then
    (p, .err "Wrong cellwidth value. min: 1, max: 10")
  else
    match justification with
    | some j =>
        (p.write ("QRCODE " ++ toString (x_upper_left.to_dots_raw p.resolution) ++ ","
          ++ toString (y_upper_left.to_dots_raw p.resolution) ++ ","
          ++ toString ecc ++ "," ++ toString cellwidth_dot ++ ",A," ++ rotate.token
          ++ "," ++ j.token ++ ",\"" ++ content ++ "\"\r\n"), .ok)
    | none =>
        (p.write ("QRCODE " ++ toString (x_upper_left.to_dots_raw p.resolution) ++ ","
          ++ toString (y_upper_left.to_dots_raw p.resolution) ++ ","
          ++ toString ecc ++ "," ++ toString cellwidth_dot ++ ",A," ++ rotate.token
          ++ ",\"" ++ content ++ "\"\r\n"), .ok)

/-- `Printer::aztec`. -/
def Printer.aztec (p : Printer) (x_start y_start : SizeQ) (rotate : Rotation)
    (sz : ℕ) (ecp : ℕ) (flg mnu : Bool) (multi : ℕ) (reversed : Bool)
    (content : String) : Printer × CallOutcome :=
  if ¬(1 ≤ sz ∧ sz ≤ 20) then (p, .err "Wrong size settings. min: 1, max: 20")
  else if 300 < ecp then (p, .err "Wrong error control parameter. Max: 300")
  else if ¬(1 ≤ multi ∧ multi ≤ 26) then (p, .err "Wrong number of symbols. min: 1, max: 26")
  else
    (p.write ("AZTEC " ++ toString (x_start.to_dots_raw p.resolution) ++ ","
      ++ toString (y_start.to_dots_raw p.resolution) ++ "," ++ rotate.token ++ ","
      ++ toString sz ++ "," ++ toString ecp ++ "," ++ boolU8 flg ++ "," ++ boolU8 mnu
      ++ "," ++ toString multi ++ "," ++ boolU8 reversed ++ ","
      ++ toString content.utf8ByteSize ++ "," ++ content ++ "\r\n"), .ok)

/-- `Printer::rss`. -/
def Printer.rss (p : Printer) (x_upper_left y_upper_left : SizeQ) (rss_type : RssType)
    (rotate : Rotation) (module_width : SizeQ) (separator_height : ℕ)
    (seg_width : Option ℕ) (lin_height : Option ℕ) (content : String) :
    Printer × CallOutcome :=
  let pix_mult := module_width.to_dots_raw p.resolution
  if ¬(1 ≤ pix_mult ∧ pix_mult ≤ 10) then (p, .err "Wrong module resolution")
  else if separator_height ≠ 1 ∧ separator_height ≠ 2 then (p, .err "Wrong separator height")
  else
    let head := "RSS " ++ toString (x_upper_left.to_dots_raw p.resolution) ++ ","
      ++ toString (y_upper_left.to_dots_raw p.resolution) ++ ", \"" ++ rss_type.token
      ++ "\"," ++ rotate.token ++ "," ++ toString pix_mult ++ ","
      ++ toString separator_height
    match rss_type with
    | .RssExp =>
        match seg_width with
        | some sw =>
            if ¬(2 ≤ sw ∧ sw ≤ 22) then (p, .err "Wrong segment width. 2 to 22 accepted")
            else (p.write (head ++ "," ++ toString sw ++ ", \"" ++ content ++ "\"\r\n"), .ok)
        | none => (p, .err "Missed segment width")
    | .Ucc128Cca | .Ucc128Ccc =>
        match lin_height with
        | some lh =>
            if ¬(1 ≤ lh ∧ lh ≤ 500) then (p, .err "Wrong line height. 1 to 500 accepted")
            else (p.write (head ++ "," ++ toString lh ++ ", \"" ++ content ++ "\"\r\n"), .ok)
        | none => (p, .err "UCC/EAN-128 height missed")
    | _ => (p.write (head ++ ", \"" ++ content ++ "\"\r\n"), .ok)

/-- `Printer::with_resolution`: open the device (modelled by `openOk`),
then `size`, `gap` and `cls` chained with `?`.  Device writes are
assumed to succeed. -/
def with_resolution (fmt : ℚ → String) (openOk : Bool) (tape : Tape) (dpi : ℕ) :
    Except String Printer :=
  if openOk then
    match andThen (andThen (Printer.size fmt ⟨dpi, ""⟩ tape.width tape.height)
        (fun p => p.gap fmt tape.gap tape.gap_offset)) Printer.cls with
    | (p, .ok) => .ok p
    | (_, .err e) => .error e
    | (_, .panicked e) => .error e
  else .error "device open failed"

/-- The chained sequence `printer.cls()?.density(99)?.cut()?` from the
chain-short-circuit property. -/
def chainClsDensity99Cut (p : Printer) : Printer × CallOutcome :=
  andThen (andThen p.cls (fun q => q.density 99)) Printer.cut

/-! Helper lemmas about the `f32` model. -/

theorem ofNat32_eq (n : ℕ) : ofNat32 n = roundF32 ((n : ℚ)) := by
  rw [ofNat32, qmk_int]
  norm_num

theorem ofNat32_nonneg (n : ℕ) : 0 ≤ ofNat32 n := by
  rw [ofNat32_eq]
  exact roundF32_nonneg (by positivity)

theorem c254_pos : 0 < c254 := by decide

theorem fmul_nonpos {x y : ℚ} (hx : x ≤ 0) (hy : 0 ≤ y) : fmul x y ≤ 0 := by
  rw [fmul, qmul_eq]
  exact roundF32_nonpos (by nlinarith)

theorem fdiv_nonpos {x y : ℚ} (hx : x ≤ 0) (hy : 0 < y) : fdiv x y ≤ 0 := by
  rw [fdiv, qdiv_eq]
  apply roundF32_nonpos
  have h1 : (0 : ℚ) ≤ y⁻¹ := inv_nonneg.mpr hy.le
  rw [div_eq_mul_inv]
  nlinarith

/-- C1: the claim quantifies the identities `to_dots(Metric(25.4), r) = r`
and `to_dots(Imperial(1.0), r) = r` over every resolution `r > 0`; this
fails at `r = 2^24 + 1 = 16777217`, which is not representable in `f32`:
`r as f32` rounds to `16777216`, so both conversions return `16777216`. -/
theorem to_dots_conversion_cex :
    SizeQ.to_dots_raw (SizeQ.Metric c254) 16777217 = 16777216 ∧
    SizeQ.to_dots_raw (SizeQ.Imperial 1) 16777217 = 16777216 ∧
    (0 : ℕ) < 16777217 ∧ (16777217 : ℕ) ≠ 16777216 := by
  refine ⟨by decide, by decide, by decide, by decide⟩

/-- C1 (amended): the conversion truncates the `f32`-computed value
toward zero — `to_dots(Imperial(x), r)` is the truncation of the `f32`
product `x * (r as f32)` and `to_dots(Metric(x), r)` the truncation of
`x / 25.4 * (r as f32)`; `to_dots(Dots(x), r) = x` unchanged; for every
resolution `0 < r < 2^32` that is exactly representable in `f32`
(`ofNat32 r = r`), `to_dots(Metric(25.4), r) = r` and
`to_dots(Imperial(1.0), r) = r`; and `to_dots(Metric(0.1), 300) = 1 =
floor(0.1 / 25.4 * 300)`, truncated, not rounded. -/
theorem to_dots_conversion_amended :
    (∀ r : ℕ, 0 < r → r < 2 ^ 32 → ofNat32 r = (r : ℚ) →
      SizeQ.to_dots_raw (SizeQ.Metric c254) r = r ∧
      SizeQ.to_dots_raw (SizeQ.Imperial 1) r = r) ∧
    SizeQ.to_dots_raw (SizeQ.Metric c01) 300 = 1 ∧
    ⌊(1 / 10 : ℚ) / (254 / 10) * 300⌋ = 1 ∧
    (∀ (x r : ℕ), SizeQ.to_dots_raw (SizeQ.Dots x) r = x) ∧
    (∀ (x : ℚ) (r : ℕ),
      SizeQ.to_dots_raw (SizeQ.Imperial x) r = truncSatU32 (fmul x (ofNat32 r))) ∧
    (∀ (x : ℚ) (r : ℕ),
      SizeQ.to_dots_raw (SizeQ.Metric x) r = truncSatU32 (fmul (fdiv x c254) (ofNat32 r))) := by
  have hmul : ∀ y : ℚ, fmul 1 y = roundF32 y := by
    intro y
    rw [fmul, qmul_eq, one_mul]
  refine ⟨?_, by decide, ?_, fun x r => rfl, fun x r => rfl, fun x r => rfl⟩
  · intro r h1 h2 h3
    have hfd : fdiv c254 c254 = 1 := by decide
    have hR : roundF32 ((r : ℚ)) = (r : ℚ) := by
      rw [← ofNat32_eq]
      exact h3
    constructor
    · show truncSatU32 (fmul (fdiv c254 c254) (ofNat32 r)) = r
      rw [hfd, hmul, h3, hR]
      exact truncSatU32_natCast h2
    · show truncSatU32 (fmul 1 (ofNat32 r)) = r
      rw [hmul, h3, hR]
      exact truncSatU32_natCast h2
  · have h : (1 / 10 : ℚ) / (254 / 10) * 300 = 150 / 127 := by norm_num
    rw [h, Int.floor_eq_iff]
    norm_num

/-- C1 (amended) witness at the concrete representable resolution 300. -/
theorem to_dots_conversion_amended_witness :
    SizeQ.to_dots_raw (SizeQ.Metric c254) 300 = 300 ∧
    SizeQ.to_dots_raw (SizeQ.Imperial 1) 300 = 300 :=
  to_dots_conversion_amended.1 300 (by norm_num) (by norm_num) (by decide)

/-- C10: the dot conversion is total and saturating: any `Imperial` or
`Metric` length whose computed `f32` dot value is negative (in
particular any negative input) converts to `0`, and computed values
exceeding `u32::MAX` saturate to `u32::MAX = 2^32 - 1` instead of
wrapping. -/
theorem to_dots_raw_saturates :
    ∀ (x : ℚ) (r : ℕ),
      (x < 0 → SizeQ.to_dots_raw (SizeQ.Imperial x) r = 0 ∧
        SizeQ.to_dots_raw (SizeQ.Metric x) r = 0) ∧
      (((2 ^ 32 - 1 : ℕ) : ℚ) < fmul x (ofNat32 r) →
        SizeQ.to_dots_raw (SizeQ.Imperial x) r = 2 ^ 32 - 1) ∧
      (((2 ^ 32 - 1 : ℕ) : ℚ) < fmul (fdiv x c254) (ofNat32 r) →
        SizeQ.to_dots_raw (SizeQ.Metric x) r = 2 ^ 32 - 1) := by
  intro x r
  refine ⟨fun hx => ⟨?_, ?_⟩, fun h => ?_, fun h => ?_⟩
  · show truncSatU32 (fmul x (ofNat32 r)) = 0
    exact truncSatU32_nonpos (fmul_nonpos hx.le (ofNat32_nonneg r))
  · show truncSatU32 (fmul (fdiv x c254) (ofNat32 r)) = 0
    exact truncSatU32_nonpos (fmul_nonpos (fdiv_nonpos hx.le c254_pos) (ofNat32_nonneg r))
  · show truncSatU32 (fmul x (ofNat32 r)) = 2 ^ 32 - 1
    exact truncSatU32_big h
  · show truncSatU32 (fmul (fdiv x c254) (ofNat32 r)) = 2 ^ 32 - 1
    exact truncSatU32_big h

/-- C10 witness: `Imperial(-1.0)` and `Metric(-1.0)` convert to `0`, and
`Imperial(2^40)` at 300 dpi saturates to `u32::MAX`. -/
theorem to_dots_raw_saturates_witness :
    SizeQ.to_dots_raw (SizeQ.Imperial (-1)) 300 = 0 ∧
    SizeQ.to_dots_raw (SizeQ.Metric (-1)) 300 = 0 ∧
    SizeQ.to_dots_raw (SizeQ.Imperial (qmk (2 ^ 40) 1)) 300 = 2 ^ 32 - 1 :=
  ⟨((to_dots_raw_saturates (-1) 300).1 (by norm_num)).1,
    ((to_dots_raw_saturates (-1) 300).1 (by norm_num)).2,
    (to_dots_raw_saturates (qmk (2 ^ 40) 1) 300).2.1 (by decide)⟩

/-- C3: assuming device writes succeed, `print(sets, copies)` succeeds
iff `1 ≤ sets ≤ 999999999` and, when `copies` is present,
`1 ≤ copies ≤ 999999999`; a successful `print(sets, None)` appends
exactly `"PRINT {sets}\r\n"` to the sink; `print(0, None)` and
`print(1000000000, None)` fail with a validation error leaving the sink
untouched, and `print(1, None)` emits exactly `"PRINT 1\r\n"`. -/
theorem print_range_and_bytes :
    ∀ (p : Printer) (sets c : ℕ),
      ((p.print sets none).2 = .ok ↔ 1 ≤ sets ∧ sets ≤ 999999999) ∧
      ((p.print sets (some c)).2 = .ok ↔
        (1 ≤ sets ∧ sets ≤ 999999999) ∧ (1 ≤ c ∧ c ≤ 999999999)) ∧
      (p.print sets none =
        if 1 ≤ sets ∧ sets ≤ 999999999 then
          (p.write ("PRINT " ++ toString sets ++ "\r\n"), .ok)
        else (p, .err ("Sets qty must be in range 1..999999999, got " ++ toString sets))) ∧
      p.print 0 none = (p, .err "Sets qty must be in range 1..999999999, got 0") ∧
      p.print 1000000000 none =
        (p, .err "Sets qty must be in range 1..999999999, got 1000000000") ∧
      p.print 1 none = (p.write "PRINT 1\r\n", .ok) := by
  intro p sets c
  have h0 : "Sets qty must be in range 1..999999999, got " ++ toString (0 : ℕ) =
      "Sets qty must be in range 1..999999999, got 0" := by decide
  have h9 : "Sets qty must be in range 1..999999999, got " ++ toString (1000000000 : ℕ) =
      "Sets qty must be in range 1..999999999, got 1000000000" := by decide
  have h1 : "PRINT " ++ toString (1 : ℕ) ++ "\r\n" = "PRINT 1\r\n" := by decide
  refine ⟨?_, ?_, ?_, ?_, ?_, ?_⟩
  · by_cases h : 1 ≤ sets ∧ sets ≤ 999999999 <;> simp [Printer.print, h]
  · by_cases h : 1 ≤ sets ∧ sets ≤ 999999999 <;>
      by_cases hc : 1 ≤ c ∧ c ≤ 999999999 <;> simp [Printer.print, h, hc]
  · by_cases h : 1 ≤ sets ∧ sets ≤ 999999999 <;> simp [Printer.print, h]
  · rw [Printer.print, if_neg (by norm_num), h0]
  · rw [Printer.print, if_neg (by norm_num), h9]
  · rw [Printer.print, if_pos (by norm_num), h1]

/-- C4: the QR ECC input byte maps to wire grade `L` on 0–6, `M` on
7–14, `Q` on 15–24 and `H` otherwise, and never makes the call fail;
assuming device writes succeed, `qrcode` fails (with a validation error
and no bytes written) exactly when the cell width is outside 1–10. -/
theorem qrcode_ecc_and_cellwidth :
    ∀ (p : Printer) (x y : SizeQ) (ecc cw : ℕ) (rot : Rotation)
      (j : Option QrCodeJustification) (content : String),
      ((p.qrcode x y ecc cw rot j content).2 = .ok ↔ 1 ≤ cw ∧ cw ≤ 10) ∧
      (¬(1 ≤ cw ∧ cw ≤ 10) →
        p.qrcode x y ecc cw rot j content =
          (p, .err "Wrong cellwidth value. min: 1, max: 10")) ∧
      qrEccGrade ecc =
        (if ecc ≤ 6 then 'L' else if ecc ≤ 14 then 'M' else if ecc ≤ 24 then 'Q' else 'H') := by
  intro p x y ecc cw rot j content
  refine ⟨?_, ?_, ?_⟩
  · by_cases h : 1 ≤ cw ∧ cw ≤ 10
    · cases j <;> simp [Printer.qrcode, h]
    · simp [Printer.qrcode, h]
  · intro h
    simp [Printer.qrcode, h]
  · rcases Nat.lt_or_ge ecc 25 with h | h
    · interval_cases ecc <;> rfl
    · obtain ⟨m, rfl⟩ : ∃ m, ecc = m + 25 := ⟨ecc - 25, by omega⟩
      rw [if_neg (by omega), if_neg (by omega), if_neg (by omega)]
      rfl

/-- C4 witness: cell width 0 is rejected with the validation error and
no bytes are written. -/
theorem qrcode_ecc_and_cellwidth_witness :
    Printer.qrcode ⟨203, "S"⟩ (SizeQ.Dots 1) (SizeQ.Dots 2) 3 0 Rotation.NoRotation
      none "QQ" = (⟨203, "S"⟩, .err "Wrong cellwidth value. min: 1, max: 10") :=
  (qrcode_ecc_and_cellwidth ⟨203, "S"⟩ (SizeQ.Dots 1) (SizeQ.Dots 2) 3 0
    Rotation.NoRotation none "QQ").2.1 (by decide)

/-- C5: `country(c)` writes exactly `"COUNTRY "` followed by the numeric
code zero-padded to width 3 and `"\r\n"`; the padded token always has
exactly 3 decimal digits, and `country(German)` (code 49) writes
`"COUNTRY 049\r\n"`. -/
theorem country_zero_padded :
    ∀ (p : Printer) (c : Country),
      p.country c = (p.write ("COUNTRY " ++ pad3 c.code ++ "\r\n"), .ok) ∧
      (pad3 c.code).length = 3 ∧
      p.country Country.German = (p.write "COUNTRY 049\r\n", .ok) := by
  intro p c
  have hG : "COUNTRY " ++ pad3 Country.German.code ++ "\r\n" = "COUNTRY 049\r\n" := by
    decide
  refine ⟨rfl, ?_, ?_⟩
  · cases c <;> decide
  · rw [Printer.country, hG]

/-- C6: the chained sequence `[cls, density(99), cut]` performs the
`cls` write (the sink gains exactly `"CLS\r\n"`), fails at `density(99)`
with its validation error, and never attempts `cut`: the appended bytes
contain no `"CUT\r\n"`. -/
theorem chain_cls_density_cut :
    ∀ p : Printer,
      chainClsDensity99Cut p =
        ({ p with out := p.out ++ "CLS\r\n" }, .err "Density should be in range 0..15") ∧
      listHas ("CUT\r\n").data ("CLS\r\n").data = false := by
  intro p
  refine ⟨?_, by decide⟩
  rw [chainClsDensity99Cut]
  rfl

/-- The `SIZE` command line emitted for a tape at construction. -/
def sizeLine (fmt : ℚ → String) (tape : Tape) : String :=
  match tape.height with
  | some h => "SIZE " ++ tape.width.display fmt ++ "," ++ h.display fmt ++ "\r\n"
  | none => "SIZE " ++ tape.width.display fmt ++ "\r\n"

/-- The `GAP` command line emitted for a tape at construction. -/
def gapLine (fmt : ℚ → String) (tape : Tape) : String :=
  match tape.gap_offset with
  | some o => "GAP " ++ tape.gap.display fmt ++ "," ++ o.display fmt ++ "\r\n"
  | none => "GAP " ++ tape.gap.display fmt ++ "\r\n"

/-- C7 counterexample: a successful construction writes the `SIZE` line,
the `GAP` line and then `"CLS\r\n"` (the source chains
`.size(..)?.gap(..)?.cls()?`), so the bytes are not exactly the `SIZE`
line followed by the `GAP` line. -/
theorem with_resolution_cex :
    with_resolution (fun _ => "") true
      ⟨SizeQ.Dots 100, none, SizeQ.Dots 10, none⟩ 203 =
      .ok ⟨203, "SIZE 100 dot\r\nGAP 10 dot\r\nCLS\r\n"⟩ ∧
    "SIZE 100 dot\r\nGAP 10 dot\r\nCLS\r\n" ≠ "SIZE 100 dot\r\n" ++ "GAP 10 dot\r\n" := by
  refine ⟨rfl, by decide⟩

/-- C7 (amended): construction with an explicitly supplied resolution
opens the device sink, then emits `SIZE`, then `GAP`, then `CLS`, then
transitions to Ready; it fails if the device open fails, and the bytes
written during a successful construction are exactly the `SIZE` line
followed by the `GAP` line followed by `"CLS\r\n"`. -/
theorem with_resolution_seq :
    ∀ (fmt : ℚ → String) (tape : Tape) (dpi : ℕ),
      with_resolution fmt true tape dpi =
        .ok ⟨dpi, sizeLine fmt tape ++ gapLine fmt tape ++ "CLS\r\n"⟩ ∧
      with_resolution fmt false tape dpi = .error "device open failed" := by
  intro fmt tape dpi
  constructor
  · obtain ⟨w, h, g, go⟩ := tape
    cases h <;> cases go <;>
      simp [with_resolution, andThen, Printer.size, Printer.gap, Printer.cls,
        Printer.write, sizeLine, gapLine, String.append_assoc]
  · rfl

/-- C8 counterexample: `display` and `menu` do not surface their failure
as the `Result` error outcome every other operation returns — they have
no `Result` return at all and panic via `unimplemented!()`. -/
theorem display_menu_cex :
    CallOutcome.isErrReturn (Printer.display ⟨203, ""⟩).2 = false ∧
    CallOutcome.isErrReturn (Printer.menu ⟨203, ""⟩).2 = false ∧
    (Printer.display ⟨203, ""⟩).2 = .panicked "not implemented" ∧
    (Printer.menu ⟨203, ""⟩).2 = .panicked "not implemented" :=
  ⟨rfl, rfl, rfl, rfl⟩

/-- C8 (amended): the unsupported commands `display` and `menu` fail
loudly rather than silently no-op: no call returns success, no byte is
written to the device sink, and the failure is a panic
(`unimplemented!()`), not the `Result` error outcome other operations
return. -/
theorem display_menu_fail_loudly :
    ∀ p : Printer,
      p.display = (p, .panicked "not implemented") ∧
      p.menu = (p, .panicked "not implemented") ∧
      (p.display).2 ≠ .ok ∧ (p.menu).2 ≠ .ok ∧
      (p.display).1.out = p.out ∧ (p.menu).1.out = p.out := by
  intro p
  refine ⟨rfl, rfl, ?_, ?_, rfl, rfl⟩
  · simp [Printer.display]
  · simp [Printer.menu]

/-- The command line a validated `block` call emits, spelled out: the
opcode keyword `TEXT`, the dot-converted `x`, `y`, `width`, `height`,
the double-quoted font token, the rotation, the multipliers, each
present optional field with a trailing comma, and the double-quoted
content terminated by CRLF. -/
def blockLine (p : Printer) (x y width height : SizeQ) (font : Font) (rot : Rotation)
    (mx my : ℕ) (space : Option SizeQ) (align : Option Alignment) (fit : Option Bool)
    (content : String) : String :=
  "TEXT " ++ toString (x.to_dots_raw p.resolution) ++ ","
    ++ toString (y.to_dots_raw p.resolution) ++ ","
    ++ toString (width.to_dots_raw p.resolution) ++ ","
    ++ toString (height.to_dots_raw p.resolution) ++ ",\"" ++ font.token ++ "\","
    ++ rot.token ++ "," ++ toString mx ++ "," ++ toString my ++ ","
    ++ (match space with
        | some s => toString (s.to_dots_raw p.resolution) ++ ","
        | none => "")
    ++ (match align with
        | some a => a.token ++ ","
        | none => "")
    ++ (match fit with
        | some f => boolU8 f ++ ","
        | none => "")
    ++ "\"" ++ content ++ "\"\r\n"

theorem listStarts_append (l m : List Char) : listStarts l (l ++ m) = true := by
  induction l with
  | nil => rfl
  | cons a as ih => simp [listStarts, ih]

/-- C9: every `block` call that passes validation (multipliers in 1–10,
content at most 4096 bytes) emits a single command line that begins
with the opcode keyword `"TEXT "` — the keyword `BLOCK` is never
written — followed by the dot-converted `x`, `y`, `width`, `height`,
the quoted font token, the rotation, the multipliers, each present
optional field with a trailing comma, and the double-quoted content
terminated by CRLF. -/
theorem block_emits_text_keyword :
    ∀ (p : Printer) (x y w h : SizeQ) (font : Font) (rot : Rotation)
      (mx my : ℕ) (space : Option SizeQ) (align : Option Alignment)
      (fit : Option Bool) (content : String),
      1 ≤ mx → mx ≤ 10 → 1 ≤ my → my ≤ 10 → content.utf8ByteSize ≤ 4096 →
      p.block x y w h font rot mx my space align fit content =
        (p.write (blockLine p x y w h font rot mx my space align fit content), .ok) ∧
      listStarts ("TEXT ").data
        (blockLine p x y w h font rot mx my space align fit content).data = true := by
  intro p x y w h font rot mx my space align fit content h1 h2 h3 h4 h5
  have hv : ¬(¬(1 ≤ mx ∧ mx ≤ 10) ∨ ¬(1 ≤ my ∧ my ≤ 10)) := by
    push_neg
    exact ⟨⟨h1, h2⟩, ⟨h3, h4⟩⟩
  constructor
  · simp only [Printer.block]
    rw [if_neg hv, if_neg (by omega)]
    cases space <;> cases align <;> cases fit <;>
      simp [blockLine, String.append_assoc]
  · have hd : (blockLine p x y w h font rot mx my space align fit content).data =
        ("TEXT ").data ++ (toString (x.to_dots_raw p.resolution) ++ ","
          ++ toString (y.to_dots_raw p.resolution) ++ ","
          ++ toString (w.to_dots_raw p.resolution) ++ ","
          ++ toString (h.to_dots_raw p.resolution) ++ ",\"" ++ font.token ++ "\","
          ++ rot.token ++ "," ++ toString mx ++ "," ++ toString my ++ ","
          ++ (match space with
              | some s => toString (s.to_dots_raw p.resolution) ++ ","
              | none => "")
          ++ (match align with
              | some a => a.token ++ ","
              | none => "")
          ++ (match fit with
              | some f => boolU8 f ++ ","
              | none => "")
          ++ "\"" ++ content ++ "\"\r\n").data := by
      simp [blockLine, String.append_assoc]
    rw [hd, listStarts_append]

/-- C9 witness: a concrete validated `block` call with all optional
fields present emits exactly the expected `TEXT` line. -/
theorem block_emits_text_keyword_witness :
    Printer.block ⟨203, ""⟩ (SizeQ.Dots 10) (SizeQ.Dots 20) (SizeQ.Dots 30)
      (SizeQ.Dots 40) Font.FontMonotye Rotation.NoRotation 1 2 (some (SizeQ.Dots 5))
      (some Alignment.Center) (some true) "HI" =
      (⟨203, "TEXT 10,20,30,40,\"0\",0,1,2,5,2,1,\"HI\"\r\n"⟩, .ok) ∧
    listStarts ("TEXT ").data ("TEXT 10,20,30,40,\"0\",0,1,2,5,2,1,\"HI\"\r\n").data
      = true := by
  have h := block_emits_text_keyword ⟨203, ""⟩ (SizeQ.Dots 10) (SizeQ.Dots 20)
    (SizeQ.Dots 30) (SizeQ.Dots 40) Font.FontMonotye Rotation.NoRotation 1 2
    (some (SizeQ.Dots 5)) (some Alignment.Center) (some true) "HI"
    (by decide) (by decide) (by decide) (by decide) (by decide)
  exact ⟨h.1.trans (by decide), by decide⟩

/-- C2: for every command with a documented parameter constraint, a call
violating the constraint returns the descriptive validation error of the
source and leaves the printer state — in particular the device sink and
every byte written by earlier successful calls — completely untouched:
the result is `(p, .err msg)` with the original `p`, so zero bytes and
no partial command line are written by the failing call. -/
theorem validation_fail_stop :
    ∀ p : Printer,
      (∀ d, ¬(1 ≤ d ∧ d ≤ 15) →
        p.density d = (p, .err "Density should be in range 0..15")) ∧
      (∀ sets copies, ¬(1 ≤ sets ∧ sets ≤ 999999999) →
        p.print sets copies =
          (p, .err ("Sets qty must be in range 1..999999999, got " ++ toString sets))) ∧
      (∀ sets c, 1 ≤ sets ∧ sets ≤ 999999999 → ¬(1 ≤ c ∧ c ≤ 999999999) →
        p.print sets (some c) =
          (p, .err ("Copies qty must be in range 1..999999999, got " ++ toString c))) ∧
      (∀ level interval, ¬(level ≤ 9 ∧ 1 ≤ interval ∧ interval ≤ 4095) →
        p.sound level interval = (p, .err "wrong sound parameters")) ∧
      (∀ s : SizeQ, 9999 < s.to_dots_raw p.resolution →
        p.feed s = (p, .err ("feed length must be in range 0..9999 in dots, got "
          ++ toString (s.to_dots_raw p.resolution)))) ∧
      (∀ s : SizeQ, 9999 < s.to_dots_raw p.resolution →
        p.backup s = (p, .err ("backup length must be in range 0..9999, got "
          ++ toString (s.to_dots_raw p.resolution)))) ∧
      (∀ s : SizeQ, 9999 < s.to_dots_raw p.resolution →
        p.backfeed s = (p, .err ("backfeed length must be in range 0..9999, got "
          ++ toString (s.to_dots_raw p.resolution)))) ∧
      (∀ x y font rot mx my align content,
        ¬(1 ≤ mx ∧ mx ≤ 10) ∨ ¬(1 ≤ my ∧ my ≤ 10) →
        p.text x y font rot mx my align content =
          (p, .err "Wrong multiplication. Should be in range 1-10")) ∧
      (∀ x y w h font rot mx my space align fit content,
        ¬(1 ≤ mx ∧ mx ≤ 10) ∨ ¬(1 ≤ my ∧ my ≤ 10) →
        p.block x y w h font rot mx my space align fit content =
          (p, .err "Wrong multiplication. Should be in range 1-10")) ∧
      (∀ x y w h font rot mx my space align fit content,
        1 ≤ mx ∧ mx ≤ 10 → 1 ≤ my ∧ my ≤ 10 → 4096 < content.utf8ByteSize →
        p.block x y w h font rot mx my space align fit content =
          (p, .err "Overflow. Max content length 4096")) ∧
      (∀ x y ecc cw rot j content, ¬(1 ≤ cw ∧ cw ≤ 10) →
        p.qrcode x y ecc cw rot j content =
          (p, .err "Wrong cellwidth value. min: 1, max: 10")) ∧
      (∀ x y rot sz ecp flg mnu multi rev content, ¬(1 ≤ sz ∧ sz ≤ 20) →
        p.aztec x y rot sz ecp flg mnu multi rev content =
          (p, .err "Wrong size settings. min: 1, max: 20")) ∧
      (∀ x y rot sz ecp flg mnu multi rev content,
        1 ≤ sz ∧ sz ≤ 20 → 300 < ecp →
        p.aztec x y rot sz ecp flg mnu multi rev content =
          (p, .err "Wrong error control parameter. Max: 300")) ∧
      (∀ x y rot sz ecp flg mnu multi rev content,
        1 ≤ sz ∧ sz ≤ 20 → ecp ≤ 300 → ¬(1 ≤ multi ∧ multi ≤ 26) →
        p.aztec x y rot sz ecp flg mnu multi rev content =
          (p, .err "Wrong number of symbols. min: 1, max: 26")) ∧
      (∀ x y t rot mw sep sw lh content,
        ¬(1 ≤ SizeQ.to_dots_raw mw p.resolution ∧ SizeQ.to_dots_raw mw p.resolution ≤ 10) →
        p.rss x y t rot mw sep sw lh content = (p, .err "Wrong module resolution")) ∧
      (∀ x y t rot mw sep sw lh content,
        1 ≤ SizeQ.to_dots_raw mw p.resolution ∧ SizeQ.to_dots_raw mw p.resolution ≤ 10 →
        sep ≠ 1 → sep ≠ 2 →
        p.rss x y t rot mw sep sw lh content = (p, .err "Wrong separator height")) ∧
      (∀ x y rot mw sep sw lh content,
        1 ≤ SizeQ.to_dots_raw mw p.resolution ∧ SizeQ.to_dots_raw mw p.resolution ≤ 10 →
        sep = 1 ∨ sep = 2 → ¬(2 ≤ sw ∧ sw ≤ 22) →
        p.rss x y RssType.RssExp rot mw sep (some sw) lh content =
          (p, .err "Wrong segment width. 2 to 22 accepted")) ∧
      (∀ x y t rot mw sep sw lh content,
        t = RssType.Ucc128Cca ∨ t = RssType.Ucc128Ccc →
        1 ≤ SizeQ.to_dots_raw mw p.resolution ∧ SizeQ.to_dots_raw mw p.resolution ≤ 10 →
        sep = 1 ∨ sep = 2 → ¬(1 ≤ lh ∧ lh ≤ 500) →
        p.rss x y t rot mw sep sw (some lh) content =
          (p, .err "Wrong line height. 1 to 500 accepted")) := by
  intro p
  refine ⟨?_, ?_, ?_, ?_, ?_, ?_, ?_, ?_, ?_, ?_, ?_, ?_, ?_, ?_, ?_, ?_, ?_, ?_⟩
  · intro d hd
    simp [Printer.density, hd]
  · intro sets copies h
    simp [Printer.print, h]
  · intro sets c h hc
    simp [Printer.print, h, hc]
  · intro level interval h
    simp [Printer.sound, h]
  · intro s h
    simp only [Printer.feed]
    rw [if_neg (by omega)]
  · intro s h
    simp only [Printer.backup]
    rw [if_neg (by omega)]
  · intro s h
    simp only [Printer.backfeed]
    rw [if_neg (by omega)]
  · intro x y font rot mx my align content h
    simp only [Printer.text]
    rw [if_pos h]
  · intro x y w h font rot mx my space align fit content hv
    simp only [Printer.block]
    rw [if_pos hv]
  · intro x y w h font rot mx my space align fit content h1 h2 h3
    simp only [Printer.block]
    rw [if_neg (by push_neg; exact ⟨h1, h2⟩), if_pos h3]
  · intro x y ecc cw rot j content h
    simp [Printer.qrcode, h]
  · intro x y rot sz ecp flg mnu multi rev content h
    simp only [Printer.aztec]
    rw [if_pos h]
  · intro x y rot sz ecp flg mnu multi rev content h1 h2
    simp only [Printer.aztec]
    rw [if_neg (by omega), if_pos h2]
  · intro x y rot sz ecp flg mnu multi rev content h1 h2 h3
    simp only [Printer.aztec]
    rw [if_neg (by omega), if_neg (by omega), if_pos h3]
  · intro x y t rot mw sep sw lh content h
    simp only [Printer.rss]
    rw [if_pos h]
  · intro x y t rot mw sep sw lh content h1 h2 h3
    simp only [Printer.rss]
    rw [if_neg (by omega), if_pos ⟨h2, h3⟩]
  · intro x y rot mw sep sw lh content h1 h2 h3
    have hs : ¬(sep ≠ 1 ∧ sep ≠ 2) := by omega
    simp [Printer.rss, h1.1, h1.2, hs, h3]
  · intro x y t rot mw sep sw lh content ht h1 h2 h3
    have hs : ¬(sep ≠ 1 ∧ sep ≠ 2) := by omega
    rcases ht with rfl | rfl <;> simp [Printer.rss, h1.1, h1.2, hs, h3]

theorem utf8Len_replicate_a (n : ℕ) :
    String.utf8Len (List.replicate n 'a') = n := by
  induction n with
  | zero => rfl
  | succ k ih =>
    rw [List.replicate_succ, String.utf8Len_cons, ih]
    rfl

theorem big_content_overflows :
    4096 < (String.mk (List.replicate 4097 'a')).utf8ByteSize := by
  rw [String.utf8ByteSize_mk, utf8Len_replicate_a]
  omega

/-- C2 witness: one concrete violating call per constrained command,
starting from a printer whose sink already holds `"PREV"`; every call
returns the descriptive error and leaves the sink at `"PREV"`. -/
theorem validation_fail_stop_witness :
    Printer.density ⟨203, "PREV"⟩ 99 =
      (⟨203, "PREV"⟩, .err "Density should be in range 0..15") ∧
    Printer.print ⟨203, "PREV"⟩ 0 none =
      (⟨203, "PREV"⟩, .err "Sets qty must be in range 1..999999999, got 0") ∧
    Printer.print ⟨203, "PREV"⟩ 1 (some 0) =
      (⟨203, "PREV"⟩, .err "Copies qty must be in range 1..999999999, got 0") ∧
    Printer.sound ⟨203, "PREV"⟩ 10 1 =
      (⟨203, "PREV"⟩, .err "wrong sound parameters") ∧
    Printer.feed ⟨203, "PREV"⟩ (SizeQ.Dots 10000) =
      (⟨203, "PREV"⟩, .err "feed length must be in range 0..9999 in dots, got 10000") ∧
    Printer.backup ⟨203, "PREV"⟩ (SizeQ.Dots 10000) =
      (⟨203, "PREV"⟩, .err "backup length must be in range 0..9999, got 10000") ∧
    Printer.backfeed ⟨203, "PREV"⟩ (SizeQ.Dots 10000) =
      (⟨203, "PREV"⟩, .err "backfeed length must be in range 0..9999, got 10000") ∧
    Printer.text ⟨203, "PREV"⟩ (SizeQ.Dots 1) (SizeQ.Dots 2) Font.FontMonotye
      Rotation.NoRotation 0 1 none "T" =
      (⟨203, "PREV"⟩, .err "Wrong multiplication. Should be in range 1-10") ∧
    Printer.block ⟨203, "PREV"⟩ (SizeQ.Dots 1) (SizeQ.Dots 2) (SizeQ.Dots 3)
      (SizeQ.Dots 4) Font.FontMonotye Rotation.NoRotation 11 1 none none none "T" =
      (⟨203, "PREV"⟩, .err "Wrong multiplication. Should be in range 1-10") ∧
    Printer.block ⟨203, "PREV"⟩ (SizeQ.Dots 1) (SizeQ.Dots 2) (SizeQ.Dots 3)
      (SizeQ.Dots 4) Font.FontMonotye Rotation.NoRotation 1 1 none none none
      (String.mk (List.replicate 4097 'a')) =
      (⟨203, "PREV"⟩, .err "Overflow. Max content length 4096") ∧
    Printer.qrcode ⟨203, "PREV"⟩ (SizeQ.Dots 1) (SizeQ.Dots 2) 3 0
      Rotation.NoRotation none "Q" =
      (⟨203, "PREV"⟩, .err "Wrong cellwidth value. min: 1, max: 10") ∧
    Printer.aztec ⟨203, "PREV"⟩ (SizeQ.Dots 1) (SizeQ.Dots 2) Rotation.NoRotation
      0 0 false false 1 false "A" =
      (⟨203, "PREV"⟩, .err "Wrong size settings. min: 1, max: 20") ∧
    Printer.aztec ⟨203, "PREV"⟩ (SizeQ.Dots 1) (SizeQ.Dots 2) Rotation.NoRotation
      1 301 false false 1 false "A" =
      (⟨203, "PREV"⟩, .err "Wrong error control parameter. Max: 300") ∧
    Printer.aztec ⟨203, "PREV"⟩ (SizeQ.Dots 1) (SizeQ.Dots 2) Rotation.NoRotation
      1 300 false false 0 false "A" =
      (⟨203, "PREV"⟩, .err "Wrong number of symbols. min: 1, max: 26") ∧
    Printer.rss ⟨203, "PREV"⟩ (SizeQ.Dots 1) (SizeQ.Dots 2) RssType.Rss14
      Rotation.NoRotation (SizeQ.Dots 0) 1 none none "R" =
      (⟨203, "PREV"⟩, .err "Wrong module resolution") ∧
    Printer.rss ⟨203, "PREV"⟩ (SizeQ.Dots 1) (SizeQ.Dots 2) RssType.Rss14
      Rotation.NoRotation (SizeQ.Dots 1) 3 none none "R" =
      (⟨203, "PREV"⟩, .err "Wrong separator height") ∧
    Printer.rss ⟨203, "PREV"⟩ (SizeQ.Dots 1) (SizeQ.Dots 2) RssType.RssExp
      Rotation.NoRotation (SizeQ.Dots 1) 1 (some 23) none "R" =
      (⟨203, "PREV"⟩, .err "Wrong segment width. 2 to 22 accepted") ∧
    Printer.rss ⟨203, "PREV"⟩ (SizeQ.Dots 1) (SizeQ.Dots 2) RssType.Ucc128Cca
      Rotation.NoRotation (SizeQ.Dots 1) 1 none (some 501) "R" =
      (⟨203, "PREV"⟩, .err "Wrong line height. 1 to 500 accepted") := by
  obtain ⟨c1, c2, c3, c4, c5, c6, c7, c8, c9, c10, c11, c12, c13, c14, c15, c16,
    c17, c18⟩ := validation_fail_stop ⟨203, "PREV"⟩
  refine ⟨c1 99 (by decide), (c2 0 none (by decide)).trans (by decide),
    (c3 1 0 (by decide) (by decide)).trans (by decide),
    c4 10 1 (by decide),
    (c5 (SizeQ.Dots 10000) (by decide)).trans (by decide),
    (c6 (SizeQ.Dots 10000) (by decide)).trans (by decide),
    (c7 (SizeQ.Dots 10000) (by decide)).trans (by decide),
    c8 (SizeQ.Dots 1) (SizeQ.Dots 2) Font.FontMonotye Rotation.NoRotation 0 1
      none "T" (Or.inl (by decide)),
    c9 (SizeQ.Dots 1) (SizeQ.Dots 2) (SizeQ.Dots 3) (SizeQ.Dots 4)
      Font.FontMonotye Rotation.NoRotation 11 1 none none none "T"
      (Or.inl (by decide)),
    c10 (SizeQ.Dots 1) (SizeQ.Dots 2) (SizeQ.Dots 3) (SizeQ.Dots 4)
      Font.FontMonotye Rotation.NoRotation 1 1 none none none
      (String.mk (List.replicate 4097 'a')) (by decide) (by decide)
      big_content_overflows,
    c11 (SizeQ.Dots 1) (SizeQ.Dots 2) 3 0 Rotation.NoRotation none "Q" (by decide),
    c12 (SizeQ.Dots 1) (SizeQ.Dots 2) Rotation.NoRotation 0 0 false false 1 false
      "A" (by decide),
    c13 (SizeQ.Dots 1) (SizeQ.Dots 2) Rotation.NoRotation 1 301 false false 1
      false "A" (by decide) (by decide),
    c14 (SizeQ.Dots 1) (SizeQ.Dots 2) Rotation.NoRotation 1 300 false false 0
      false "A" (by decide) (by decide) (by decide),
    c15 (SizeQ.Dots 1) (SizeQ.Dots 2) RssType.Rss14 Rotation.NoRotation
      (SizeQ.Dots 0) 1 none none "R" (by decide),
    c16 (SizeQ.Dots 1) (SizeQ.Dots 2) RssType.Rss14 Rotation.NoRotation
      (SizeQ.Dots 1) 3 none none "R" (by decide) (by decide) (by decide),
    c17 (SizeQ.Dots 1) (SizeQ.Dots 2) Rotation.NoRotation (SizeQ.Dots 1) 1 23
      none "R" (by decide) (Or.inl rfl) (by decide),
    c18 (SizeQ.Dots 1) (SizeQ.Dots 2) RssType.Ucc128Cca Rotation.NoRotation
      (SizeQ.Dots 1) 1 none 501 "R" (Or.inl rfl) (by decide) (Or.inl rfl)
      (by decide)⟩

end Tspl2
